import Mathlib

/-!
Verification of pybind11 `embedded.h`, the interpreter lifecycle wrappers.

A shallow embedding of `include/pybind11/embedded.h` and of the test driver
`tests/test_cmake_build/embedded.cpp`.

The wrappers are state-passing functions over `Interp`, the state of the
embedded interpreter.  A C++ function that may throw is a `Cpp α`: it maps a
state to a result (a value or the exception thrown) and the state left behind.
The CPython entry points and the pybind11 core the wrappers call are not part
of the embedded sources; they are modelled in the section `Runtime`.
-/

namespace pybind11

/-! ## Data model -/

/-- A `PyObject *`: the address of an object in the interpreter's heap. -/
abbrev PyPtr := Nat

/-- The C function pointer type `add_embedded_module::init_t`
(`PyObject *(*)()` on Python 3).  A function pointer is identified by the
linker symbol of the function it points to. -/
abbrev init_t := String

/-- The Python objects the embedding handles. -/
inductive PyObj where
  | int (v : Int)
  | str (s : String)
  | tuple (items : List PyPtr)
  | list (items : List PyPtr)
  | dict (entries : List (String × PyPtr))
  | module (md_dict : PyPtr)
  | cpp_function (f : List Int → Option Int)

/-- The C++ exceptions that cross the embedded API. `abort` is not an
exception: it stands for the process ending without unwinding (undefined
behaviour such as using the Python API on an interpreter that is not
initialised, or following a dangling `PyObject *`). -/
inductive CppException where
  | runtime_error (what : String)
  | error_already_set (what : String)
  | cast_error (what : String)
  | abort
  deriving DecidableEq, Repr

/-- One call of a CPython lifecycle entry point, with its arguments and the
value it returned. -/
inductive ApiCall where
  | Py_IsInitialized (result : Bool)
  | Py_InitializeEx (initsigs : Int)
  | Py_Finalize
  | PyImport_AppendInittab (name : String) (init : init_t) (result : Int)
  deriving DecidableEq, Repr

/-- The state of the embedded interpreter, as the host program can observe it. -/
structure Interp where
  /-- what `Py_IsInitialized()` reports -/
  initialized : Bool
  /-- whether the interpreter has installed its signal handlers -/
  signal_handlers : Bool
  /-- the table of built-in modules, `PyImport_Inittab` -/
  inittab : List (String × init_t)
  /-- `sys.modules` -/
  sys_modules : List (String × PyPtr)
  /-- the object heap; a `PyPtr` is an index into it -/
  heap : List PyObj
  /-- the module search path the runtime computes at start-up -/
  startup_path : List String
  /-- the names of the further modules the runtime's start-up loads, besides
  `sys`, `__main__` and `builtins` (for CPython 3: `_frozen_importlib`, `_imp`,
  `_io`, `os`, `site` and others, by version and configuration) -/
  startup_loaded : List String
  /-- outcomes of the coming requests to grow the built-in table
  (`true`: the allocation succeeds; an exhausted list: it succeeds) -/
  table_alloc : List Bool
  /-- the lifecycle entry points called so far, oldest first -/
  calls : List ApiCall

/-- A C++ computation: from a state, a value or a thrown exception, and the
state left behind. -/
def Cpp (α : Type) : Type := Interp → Except CppException α × Interp

namespace Cpp

/-- Normal return. -/
def ret {α : Type} (a : α) : Cpp α := fun s => (.ok a, s)

/-- Sequencing; an exception skips the rest and keeps the state reached. -/
def andThen {α β : Type} (m : Cpp α) (f : α → Cpp β) : Cpp β := fun s =>
  match m s with
  | (.ok a, s') => f a s'
  | (.error e, s') => (.error e, s')

/-- The C++ `throw`. -/
def raise {α : Type} (e : CppException) : Cpp α := fun s => (.error e, s)

instance : Monad Cpp where
  pure := ret
  bind := andThen

end Cpp

/-! ## Runtime: CPython entry points and pybind11 core used by `embedded.h` -/

section Runtime

/-- Modelled from the spec: `pybind11_fail` of pybind11's `common.h`, which is
not among the sources; it throws `std::runtime_error` with the given reason
and does not return. -/
def pybind11_fail {α : Type} (reason : String) : Cpp α :=
  Cpp.raise (.runtime_error reason)

/-- Record a lifecycle call. -/
def logCall (c : ApiCall) (s : Interp) : Interp :=
  { s with calls := s.calls ++ [c] }

/-- Modelled from the spec: CPython's `Py_IsInitialized`, the foreign
runtime's query; it reports the flag and changes nothing else. -/
def Py_IsInitialized : Cpp Bool := fun s =>
  (.ok s.initialized, logCall (.Py_IsInitialized s.initialized) s)

/-- Modelled from the spec: CPython's `PyImport_AppendInittab`, the foreign
runtime's append-module-table entry point.  It adds one entry at the end of
the table of built-in modules and returns 0, or returns -1 and leaves the
table alone when the table cannot be extended. -/
def PyImport_AppendInittab (name : String) (init : init_t) : Cpp Int := fun s =>
  match s.table_alloc with
  | false :: rest =>
    (.ok (-1), logCall (.PyImport_AppendInittab name init (-1)) { s with table_alloc := rest })
  | _ =>
    (.ok 0, logCall (.PyImport_AppendInittab name init 0)
      { s with inittab := s.inittab ++ [(name, init)], table_alloc := s.table_alloc.tail })

/-- Modelled from the spec: the objects of the modules the start-up loads
besides `sys` and `__main__`, three per module from address `base` on: the
name, the dictionary and the module object. -/
def loaded_objects (base : Nat) : List String → List PyObj
  | [] => []
  | name :: names =>
    [.str name, .dict [("__name__", base)], .module (base + 1)] ++
      loaded_objects (base + 3) names

/-- Modelled from the spec: the entries of `sys.modules` for the modules of
`loaded_objects`. -/
def loaded_modules (base : Nat) : List String → List (String × PyPtr)
  | [] => []
  | name :: names => (name, base + 2) :: loaded_modules (base + 3) names

/-- Modelled from the spec: the objects CPython's start-up creates, laid out
in a fresh heap: the entries of `sys.path`, the list `sys.path` itself, the
modules `sys` and `__main__` with their names and dictionaries, then
`builtins` and the further modules the start-up loads.  How the start-up
obtained a module (built in, frozen, or from a file) is not modelled. -/
def startup_heap (path : List String) (loaded : List String) : List PyObj :=
  path.map PyObj.str ++
    ([ .list (List.range path.length),
      .str "sys",
      .dict [("__name__", path.length + 1), ("path", path.length)],
      .module (path.length + 2),
      .str "__main__",
      .dict [("__name__", path.length + 4)],
      .module (path.length + 5) ] ++
      loaded_objects (path.length + 7) ("builtins" :: loaded))

/-- Modelled from the spec: `sys.modules` as CPython's start-up leaves it. -/
def startup_modules (path : List String) (loaded : List String) : List (String × PyPtr) :=
  [("sys", path.length + 3), ("__main__", path.length + 6)] ++
    loaded_modules (path.length + 7) ("builtins" :: loaded)

/-- Modelled from the spec: CPython's `Py_InitializeEx`, the foreign
runtime's initialize entry point.  It does nothing when the interpreter is
already initialised; otherwise it builds the start-up objects, among them
the modules the start-up loads (`sys`, `__main__`, `builtins` and those of
`startup_loaded`), and registers the signal handlers unless `initsigs` is 0. -/
def Py_InitializeEx (initsigs : Int) : Cpp Unit := fun s =>
  let s := logCall (.Py_InitializeEx initsigs) s
  if s.initialized then (.ok (), s)
  else
    (.ok (), { s with
      initialized := true,
      signal_handlers := initsigs != 0,
      heap := startup_heap s.startup_path s.startup_loaded,
      sys_modules := startup_modules s.startup_path s.startup_loaded })

/-- Modelled from the spec: CPython's `Py_Finalize`, the foreign runtime's
finalize entry point.  It does nothing when the interpreter is not
initialised; otherwise it destroys all objects and modules.  The table of
built-in modules is kept. -/
def Py_Finalize : Cpp Unit := fun s =>
  let s := logCall .Py_Finalize s
  if s.initialized then
    (.ok (), { s with initialized := false, signal_handlers := false, heap := [], sys_modules := [] })
  else (.ok (), s)

/-- What the linked host program and its files provide to the interpreter. -/
structure Env where
  /-- the function a function pointer of type `init_t` points to -/
  initfunc : init_t → Option (Cpp PyPtr)
  /-- the effect of running a Python file with the given globals and locals:
  the value or the Python error it ends with; `none` when the file cannot be
  opened -/
  run_file : String → Option (PyPtr → PyPtr → Interp → Except String PyPtr × Interp)

/-- Guard of every Python API call: using the API on an interpreter that is
not initialised is undefined behaviour. -/
def py_api {α : Type} (m : Cpp α) : Cpp α := fun s =>
  if s.initialized then m s else (.error .abort, s)

/-- Allocate a new object; its address is the next free heap slot. -/
def py_new (o : PyObj) : Cpp PyPtr :=
  py_api fun s => (.ok s.heap.length, { s with heap := s.heap ++ [o] })

/-- Follow a `PyObject *`. -/
def py_deref (p : PyPtr) : Cpp PyObj :=
  py_api fun s =>
    match s.heap[p]? with
    | some o => (.ok o, s)
    | none => (.error .abort, s)

/-- Assignment to a dictionary key: replace the entry, or add one at the end. -/
def dict_setitem (entries : List (String × PyPtr)) (k : String) (v : PyPtr) :
    List (String × PyPtr) :=
  if (entries.lookup k).isSome then
    entries.map fun e => if e.1 == k then (k, v) else e
  else entries ++ [(k, v)]

/-- Modelled from the spec: `module::import` of pybind11.h
(`PyImport_ImportModule`, with `error_already_set` thrown when it fails).  A
module found in `sys.modules` is returned as it is.  Otherwise the first
entry of that name in the table of built-in modules is taken, its init
function is called, and the module it returns is stored in `sys.modules`.
Modules found through `sys.path` are outside the model. -/
def module_import (env : Env) (name : String) : Cpp PyPtr :=
  py_api fun s =>
    match s.sys_modules.lookup name with
    | some m => (.ok m, s)
    | none =>
      match s.inittab.lookup name with
      | none => (.error (.error_already_set ("ModuleNotFoundError: No module named " ++ name)), s)
      | some init =>
        match env.initfunc init with
        | none => (.error .abort, s)
        | some f =>
          match f s with
          | (.ok m, s') => (.ok m, { s' with sys_modules := dict_setitem s'.sys_modules name m })
          | (.error e, s') => (.error e, s')

/-- Modelled from the spec: attribute access `obj.attr(name)` of pybind11.h
(`PyObject_GetAttrString`), for the objects of the model: a module has its
`__dict__` and the entries of that dictionary. -/
def getattr (obj : PyPtr) (name : String) : Cpp PyPtr := do
  match (← py_deref obj) with
  | .module d =>
    if name == "__dict__" then return d
    match (← py_deref d) with
    | .dict entries =>
      match entries.lookup name with
      | some v => return v
      | none => Cpp.raise (.error_already_set ("AttributeError: " ++ name))
    | _ => Cpp.raise .abort
  | _ => Cpp.raise (.error_already_set ("AttributeError: " ++ name))

/-- Modelled from the spec: attribute assignment `obj.attr(name) = value` of
pybind11.h (`PyObject_SetAttrString`), for module objects. -/
def setattr (obj : PyPtr) (name : String) (value : PyPtr) : Cpp Unit := do
  match (← py_deref obj) with
  | .module d =>
    match (← py_deref d) with
    | .dict entries =>
      fun s => (.ok (), { s with heap := s.heap.set d (.dict (dict_setitem entries name value)) })
    | _ => Cpp.raise .abort
  | _ => Cpp.raise (.error_already_set ("AttributeError: " ++ name))

/-- Modelled from the spec: the cast of a C++ string to a Python `str`. -/
def py_str (v : String) : Cpp PyPtr := py_new (.str v)

/-- Modelled from the spec: the cast of a C++ `int` to a Python `int`. -/
def py_int (v : Int) : Cpp PyPtr := py_new (.int v)

/-- Modelled from the spec: `py::make_tuple` on objects already cast. -/
def make_tuple (items : List PyPtr) : Cpp PyPtr := py_new (.tuple items)

/-- Modelled from the spec: CPython's `PyList_Append`; -1 when the object is
not a list. -/
def PyList_Append (l : PyPtr) (item : PyPtr) : Cpp Int := do
  match (← py_deref l) with
  | .list items => fun s => (.ok 0, { s with heap := s.heap.set l (.list (items ++ [item])) })
  | _ => return -1

/-- Modelled from the spec: `list::append` of pybind11.h on a C++ string: the
string is cast to a Python `str` and appended; the result of
`PyList_Append` is not looked at. -/
def list_append (self : PyPtr) (val : String) : Cpp Unit := do
  let item ← py_str val
  let _ ← PyList_Append self item
  return ()

/-- Modelled from the spec: the constructor `module::module(name)` of
pybind11.h (`PyModule_Create`): a new module object whose `__name__` is
`name`. -/
def module_new (name : String) : Cpp PyPtr := do
  let n ← py_str name
  let d ← py_new (.dict [("__name__", n)])
  py_new (.module d)

/-- Modelled from the spec: `module::def` of pybind11.h for a C++ function on
`int`s: wrap it in a function object and store it in the module under
`name`, overwriting. -/
def module_def (m : PyPtr) (name : String) (f : List Int → Option Int) : Cpp Unit := do
  let func ← py_new (.cpp_function f)
  setattr m name func

/-- The range of the C++ type `int`. -/
def in_int_range (v : Int) : Bool := decide (-(2 : Int) ^ 31 ≤ v) && decide (v < (2 : Int) ^ 31)

/-- The `int` values of the objects at the given addresses, when all of
them are Python `int`s in the range of the C++ `int`. -/
def load_ints (heap : List PyObj) : List PyPtr → Option (List Int)
  | [] => some []
  | p :: ps =>
    match heap[p]?, load_ints heap ps with
    | some (.int v), some vs => if in_int_range v then some (v :: vs) else none
    | _, _ => none

/-- Modelled from the spec: `PyObject_CallObject` as the call operator of
pybind11.h uses it, on a function made by `cpp_function`: the arguments are
converted to C++ `int`s, the function runs, its result is cast back. -/
def PyObject_CallObject (callable : PyPtr) (args : PyPtr) : Cpp PyPtr := do
  match (← py_deref callable), (← py_deref args) with
  | .cpp_function f, .tuple items =>
    let heap ← (fun s => (.ok s.heap, s) : Cpp (List PyObj))
    match load_ints heap items with
    | none => Cpp.raise (.error_already_set "TypeError: incompatible function arguments")
    | some vs =>
      match f vs with
      | some r => py_int r
      | none => Cpp.raise .abort
  | _, _ => Cpp.raise (.error_already_set "TypeError: object is not callable")

/-- Modelled from the spec: `handle::cast<int>()` of pybind11's cast.h. -/
def cast_int (obj : PyPtr) : Cpp Int := do
  match (← py_deref obj) with
  | .int v =>
    if in_int_range v then return v
    else Cpp.raise (.cast_error "Unable to cast Python instance to C++ type")
  | _ => Cpp.raise (.cast_error "Unable to cast Python instance to C++ type")

/-- Modelled from the spec: `handle::cast<dict>()` of pybind11's cast.h: the
same object, when it is a dictionary. -/
def cast_dict (obj : PyPtr) : Cpp PyPtr := do
  match (← py_deref obj) with
  | .dict _ => return obj
  | _ => Cpp.raise (.cast_error "Unable to cast Python instance to C++ type")

/-- Modelled from the spec: `eval_file` of pybind11's eval.h with the locals
defaulted to the globals: a file that cannot be opened is a
`pybind11_fail`, a Python error while it runs is an `error_already_set`. -/
def eval_file (env : Env) (fname : String) (global : PyPtr) : Cpp PyPtr :=
  py_api fun s =>
    match env.run_file fname with
    | none => pybind11_fail ("File \"" ++ fname ++ "\" could not be opened!") s
    | some run =>
      match run global global s with
      | (.ok v, s') => (.ok v, s')
      | (.error e, s') => (.error (.error_already_set e), s')

end Runtime

/-! ## `embedded.h` -/

/-- The constructor `detail::add_embedded_module::add_embedded_module`. -/
def add_embedded_module (name : String) (init : init_t) : Cpp Unit := do
  if (← Py_IsInitialized) then
    pybind11_fail "Can't add new modules after the interpreter has been initialized"
  let result ← PyImport_AppendInittab name init
  if result == -1 then
    pybind11_fail "Insufficient memory to add a new module"

/-- The linker symbol `pybind11_init_impl_##name` the macros give the
generated init function. -/
def pybind11_init_impl_symbol (name : String) : init_t :=
  "pybind11_init_impl_" ++ name

/-- The function `pybind11_init_impl_##name` that
`PYBIND11_ADD_EMBEDDED_MODULE_IMPL(name)` defines on Python 3;
`pybind11_init` is the user-written body `pybind11_init_##name`.  The body
takes the module by reference (`module &`) and may assign to it: it is a
function from the object the reference holds on entry to the object it holds
on return, and `m.ptr()` is read after the body. -/
def pybind11_init_impl (name : String) (pybind11_init : PyPtr → Cpp PyPtr) : Cpp PyPtr := do
  let m ← module_new name
  let m ← pybind11_init m
  return m

/-- The static object `name` that `PYBIND11_ADD_EMBEDDED_MODULE(name)`
declares: its construction, which runs before `main`. -/
def PYBIND11_ADD_EMBEDDED_MODULE (name : String) : Cpp Unit :=
  add_embedded_module name (pybind11_init_impl_symbol name)

/-- The functions a program made of the given embedded modules (macro
argument and user-written body) links, and the files it can run. -/
def link (modules : List (String × (PyPtr → Cpp PyPtr)))
    (run_file : String → Option (PyPtr → PyPtr → Interp → Except String PyPtr × Interp)) : Env where
  initfunc sym :=
    (modules.find? fun m => pybind11_init_impl_symbol m.1 == sym).map
      fun m => pybind11_init_impl m.1 m.2
  run_file := run_file

/-- The function `initialize_interpreter`. -/
def initialize_interpreter (env : Env) (init_signal_handlers : Bool := true) : Cpp Unit := do
  if (← Py_IsInitialized) then
    return ()
  else
    Py_InitializeEx (if init_signal_handlers then 1 else 0)
    -- Make .py files in the working directory available by default
    let sys_path ← getattr (← module_import env "sys") "path"
    list_append sys_path "."

/-- The function `finalize_interpreter`. -/
def finalize_interpreter : Cpp Unit := Py_Finalize

/-- The scope guard `scoped_interpreter`; it has no members. -/
structure scoped_interpreter where
  deriving DecidableEq, Repr

/-- The constructor `scoped_interpreter()`. -/
def scoped_interpreter.ctor (env : Env) : Cpp scoped_interpreter := do
  initialize_interpreter env
  return {}

/-- The destructor `~scoped_interpreter()`. -/
def scoped_interpreter.dtor (_self : scoped_interpreter) : Cpp Unit := do
  finalize_interpreter

/-- The function `main()` of `embedded.h`: the `__main__` module. -/
def main (env : Env) : Cpp PyPtr := module_import env "__main__"

/-- The function `globals()`. -/
def globals (env : Env) : Cpp PyPtr := do
  cast_dict (← getattr (← main env) "__dict__")

/-! ## `tests/test_cmake_build/embedded.cpp` -/

namespace embedded_cpp

/-- The lambda `[](int i, int j) { return i + j; }`; a sum outside the
range of `int` is undefined. -/
def add : List Int → Option Int
  | [i, j] => if in_int_range (i + j) then some (i + j) else none
  | _ => none

/-- The body of `PYBIND11_ADD_EMBEDDED_MODULE(test_cmake_build)`; it does not
assign to `m`. -/
def pybind11_init_test_cmake_build (m : PyPtr) : Cpp PyPtr := do
  module_def m "add" add
  return m

/-- The check `main` makes of the module: import `test_cmake_build` and call
`add(1, 2)`, the result cast to `int`.  The arguments are cast before the
attribute is looked up. -/
def import_and_add (env : Env) : Cpp Int := do
  let m ← module_import env "test_cmake_build"
  let one ← py_int 1
  let two ← py_int 2
  let args ← make_tuple [one, two]
  let r ← PyObject_CallObject (← getattr m "add") args
  cast_int r

/-- The program as linked: its one embedded module, and the files it finds. -/
def env (run_file : String → Option (PyPtr → PyPtr → Interp → Except String PyPtr × Interp)) : Env :=
  link [("test_cmake_build", pybind11_init_test_cmake_build)] run_file

/-- Static initialisation: the object the macro declares is constructed. -/
def static_init : Cpp Unit := PYBIND11_ADD_EMBEDDED_MODULE "test_cmake_build"

/-- The function `main` of the test driver.  An exception that leaves `main`
ends the program; the guard's destructor is run on the normal path.  The
operands of the assignment to `sys.argv` are evaluated left to right. -/
def main (run_file : String → Option (PyPtr → PyPtr → Interp → Except String PyPtr × Interp))
    (argc : Int) (argv : List String) : Cpp Int := do
  if argc != 2 then
    Cpp.raise (.runtime_error "Expected test.py file as the first argument")
  else
    match argv[1]? with
    | none => Cpp.raise .abort
    | some test_py_file =>
      let guard ← scoped_interpreter.ctor (env run_file)
      let m ← module_import (env run_file) "test_cmake_build"
      let one ← py_int 1
      let two ← py_int 2
      let args ← make_tuple [one, two]
      let r ← PyObject_CallObject (← getattr m "add") args
      if (← cast_int r) != 3 then
        Cpp.raise (.runtime_error "embedded.cpp failed")
      else
        let sys ← module_import (env run_file) "sys"
        let a0 ← py_str "test.py"
        let a1 ← py_str "embedded.cpp"
        setattr sys "argv" (← make_tuple [a0, a1])
        let _ ← eval_file (env run_file) test_py_file (← globals (env run_file))
        guard.dtor
        return 0

end embedded_cpp

/-! ## Observations -/

/-- The strings at the given addresses, when all are `str` objects. -/
def load_strs (heap : List PyObj) : List PyPtr → Option (List String)
  | [] => some []
  | p :: ps =>
    match heap[p]?, load_strs heap ps with
    | some (.str v), some vs => some (v :: vs)
    | _, _ => none

/-- The value of `sys.path` as a list of strings: the attribute `path` of the
module `sys.modules["sys"]`. -/
def sys_path (s : Interp) : Option (List String) :=
  match s.sys_modules.lookup "sys" with
  | none => none
  | some m =>
    match s.heap[m]? with
    | some (.module d) =>
      match s.heap[d]? with
      | some (.dict entries) =>
        match entries.lookup "path" with
        | some l =>
          match s.heap[l]? with
          | some (.list items) => load_strs s.heap items
          | _ => none
        | none => none
      | _ => none
    | _ => none

/-- The name of a module object: the `__name__` entry of its dictionary. -/
def module_name (s : Interp) (m : PyPtr) : Option String :=
  match s.heap[m]? with
  | some (.module d) =>
    match s.heap[d]? with
    | some (.dict entries) =>
      match entries.lookup "__name__" with
      | some n =>
        match s.heap[n]? with
        | some (.str v) => some v
        | _ => none
      | none => none
    | _ => none
  | _ => none

/-- A process that has just started: nothing initialised, the table of
built-in modules as given. -/
def fresh (inittab : List (String × init_t)) (path : List String) (loaded : List String)
    (alloc : List Bool) : Interp where
  initialized := false
  signal_handlers := false
  inittab := inittab
  sys_modules := []
  heap := []
  startup_path := path
  startup_loaded := loaded
  table_alloc := alloc
  calls := []

/-- What the words of the documentation say `globals()` is: import
"__main__", take its attribute `__dict__`, cast it to a `dict`. -/
def globals_spec (env : Env) : Cpp PyPtr := do
  let main_module ← module_import env "__main__"
  let main_dict ← getattr main_module "__dict__"
  cast_dict main_dict

/-- Modules a CPython 3 start-up loads besides `sys`, `__main__` and
`builtins`. -/
def sample_loaded : List String :=
  ["_frozen_importlib", "_imp", "_warnings", "_io", "marshal", "posix", "zipimport",
    "encodings", "codecs", "_signal", "site", "os"]

/-- A started process with an empty table of built-in modules, used to
instantiate the theorems. -/
def sample_fresh : Interp := fresh [] ["/usr/lib/python3"] sample_loaded []

/-- The state `sample_fresh` after `Py_InitializeEx(1)`. -/
def sample_running : Interp := (Py_InitializeEx 1 sample_fresh).2

/-- A host program without embedded modules or files. -/
def sample_env : Env := link [] fun _ => none

/-- Two steps taken in the scope of a guard: a string is created, the
interpreter is queried. -/
def sample_steps : List (Interp → Interp) :=
  [fun t => (py_str "Hello, World!" t).2, fun t => (Py_IsInitialized t).2]

/-- A second guard constructed and destroyed in the scope of a first:
`{ py::scoped_interpreter inner{}; }`. -/
def sample_nested_steps : List (Interp → Interp) :=
  [fun t => (scoped_interpreter.ctor sample_env t).2,
    fun t => (scoped_interpreter.dtor {} t).2]

/-- A host program whose one embedded module is registered under the name
"sys", with the body of the test driver's module. -/
def sample_sys_env : Env :=
  link [("sys", embedded_cpp.pybind11_init_test_cmake_build)] fun _ => none

/-- A started process whose table of built-in modules already has the
runtime's own module "gc". -/
def sample_gc_fresh : Interp :=
  fresh [("gc", "PyInit_gc")] ["/usr/lib/python3"] sample_loaded []

/-- A host program that registers an embedded module under the name "gc",
with the body of the test driver's module; `PyInit_gc` is the runtime's init
function of its own "gc", which makes a module of that name. -/
def sample_gc_env : Env where
  initfunc sym :=
    if sym == "PyInit_gc" then some (module_new "gc")
    else (link [("gc", embedded_cpp.pybind11_init_test_cmake_build)] fun _ => none).initfunc sym
  run_file := fun _ => none

/-- A started process whose table of built-in modules cannot grow. -/
def sample_full_fresh : Interp := fresh [] ["/usr/lib/python3"] sample_loaded [false]

/-- A body that assigns to its argument: `m = py::module::import("sys");`. -/
def sample_rebinding_body (_m : PyPtr) : Cpp PyPtr :=
  module_import sample_env "sys"

/-- A host program whose one embedded module, "example", has the body
`sample_rebinding_body`. -/
def sample_rebinding_env : Env :=
  link [("example", sample_rebinding_body)] fun _ => none

/-- The computation never ends by throwing `e`. -/
def avoids {α : Type} (e : CppException) (m : Cpp α) : Prop :=
  ∀ s, (m s).1 ≠ .error e

/-! ## Stepping through a computation -/

@[simp] theorem Cpp.pure_run {α : Type} (a : α) (s : Interp) :
    (pure a : Cpp α) s = (.ok a, s) := rfl

@[simp] theorem Cpp.raise_run {α : Type} (e : CppException) (s : Interp) :
    (Cpp.raise e : Cpp α) s = (.error e, s) := rfl

theorem Cpp.bind_run {α β : Type} (m : Cpp α) (f : α → Cpp β) (s : Interp) :
    (m >>= f) s = match m s with
      | (.ok a, s') => f a s'
      | (.error e, s') => (.error e, s') := rfl

@[simp] theorem pybind11_fail_run {α : Type} (reason : String) (s : Interp) :
    (pybind11_fail reason : Cpp α) s = (.error (.runtime_error reason), s) := rfl

@[simp] theorem Py_IsInitialized_run (s : Interp) :
    Py_IsInitialized s = (.ok s.initialized, logCall (.Py_IsInitialized s.initialized) s) := rfl

@[simp] theorem logCall_initialized (c : ApiCall) (s : Interp) :
    (logCall c s).initialized = s.initialized := rfl

@[simp] theorem logCall_inittab (c : ApiCall) (s : Interp) :
    (logCall c s).inittab = s.inittab := rfl

@[simp] theorem logCall_calls (c : ApiCall) (s : Interp) :
    (logCall c s).calls = s.calls ++ [c] := rfl

@[simp] theorem logCall_table_alloc (c : ApiCall) (s : Interp) :
    (logCall c s).table_alloc = s.table_alloc := rfl

/-! ## `add_embedded_module` -/

/-- The constructor on an initialised interpreter: the first check throws. -/
theorem add_embedded_module_run_initialized (name : String) (init : init_t) (s : Interp)
    (h : s.initialized = true) :
    add_embedded_module name init s =
      (.error (.runtime_error "Can't add new modules after the interpreter has been initialized"),
        logCall (.Py_IsInitialized true) s) := by
  simp [add_embedded_module, Cpp.bind_run, h]

/-- The constructor on an interpreter that is not initialised, by the outcome
of the next request to grow the table. -/
theorem add_embedded_module_run_uninitialized (name : String) (init : init_t) (s : Interp)
    (h : s.initialized = false) :
    add_embedded_module name init s =
      match PyImport_AppendInittab name init (logCall (.Py_IsInitialized false) s) with
      | (.ok result, s') =>
        if result = -1 then
          (.error (.runtime_error "Insufficient memory to add a new module"), s')
        else (.ok (), s')
      | (.error e, s') => (.error e, s') := by
  rcases hr : PyImport_AppendInittab name init (logCall (.Py_IsInitialized false) s) with ⟨r, s'⟩
  cases r with
  | error e => simp [add_embedded_module, Cpp.bind_run, h, hr]
  | ok result =>
    by_cases hres : result = -1
    · simp [add_embedded_module, Cpp.bind_run, h, hr, hres]
    · simp [add_embedded_module, Cpp.bind_run, h, hr, hres]

/-- Claim C1: when the interpreter is already initialised, constructing
`add_embedded_module` throws "Can't add new modules after the interpreter has
been initialized"; the table of built-in modules is unchanged and the only
lifecycle call made is the query `Py_IsInitialized`, so
`PyImport_AppendInittab` is not called. -/
theorem add_embedded_module_after_initialize (name : String) (init : init_t) (s : Interp)
    (h : s.initialized = true) :
    (add_embedded_module name init s).1 =
        .error (.runtime_error "Can't add new modules after the interpreter has been initialized")
      ∧ (add_embedded_module name init s).2.inittab = s.inittab
      ∧ (add_embedded_module name init s).2.calls = s.calls ++ [.Py_IsInitialized true]
      ∧ ∀ n i r, ApiCall.PyImport_AppendInittab n i r ∉
          (add_embedded_module name init s).2.calls.drop s.calls.length := by
  rw [add_embedded_module_run_initialized name init s h]
  refine ⟨rfl, rfl, rfl, ?_⟩
  intro n i r
  simp

/-- Instance of claim C1 on a running interpreter. -/
theorem add_embedded_module_after_initialize_witness :
    sample_running.initialized = true ∧
    (add_embedded_module "example" "pybind11_init_impl_example" sample_running).1 =
        .error (.runtime_error "Can't add new modules after the interpreter has been initialized")
      ∧ (add_embedded_module "example" "pybind11_init_impl_example" sample_running).2.inittab =
          sample_running.inittab
      ∧ (add_embedded_module "example" "pybind11_init_impl_example" sample_running).2.calls =
          sample_running.calls ++ [.Py_IsInitialized true]
      ∧ ∀ n i r, ApiCall.PyImport_AppendInittab n i r ∉
          (add_embedded_module "example" "pybind11_init_impl_example" sample_running).2.calls.drop
            sample_running.calls.length :=
  ⟨rfl, add_embedded_module_after_initialize "example" "pybind11_init_impl_example"
    sample_running rfl⟩

/-- Claim C2: when the interpreter is not initialised, constructing
`add_embedded_module` calls `PyImport_AppendInittab` exactly once, with the
given name and init function; with `result` the value that call returns, the
constructor returns normally if and only if `result` is not -1, and when it is
-1 the constructor throws "Insufficient memory to add a new module". -/
theorem add_embedded_module_before_initialize (name : String) (init : init_t) (s : Interp)
    (h : s.initialized = false) :
    ∃ result : Int,
      (PyImport_AppendInittab name init (logCall (.Py_IsInitialized false) s)).1 = .ok result
      ∧ (add_embedded_module name init s).2.calls =
          s.calls ++ [.Py_IsInitialized false, .PyImport_AppendInittab name init result]
      ∧ ((add_embedded_module name init s).1 = .ok () ↔ result ≠ -1)
      ∧ (result = -1 → (add_embedded_module name init s).1 =
          .error (.runtime_error "Insufficient memory to add a new module")) := by
  rw [add_embedded_module_run_uninitialized name init s h]
  rcases hs : s.table_alloc with _ | ⟨b, rest⟩
  · exact ⟨0, by simp [PyImport_AppendInittab, hs]⟩
  · cases b
    · exact ⟨-1, by simp [PyImport_AppendInittab, hs]⟩
    · exact ⟨0, by simp [PyImport_AppendInittab, hs]⟩

/-- Instance of claim C2 on a process that has just started. -/
theorem add_embedded_module_before_initialize_witness :
    sample_fresh.initialized = false ∧
    ∃ result : Int,
      (PyImport_AppendInittab "example" "pybind11_init_impl_example"
          (logCall (.Py_IsInitialized false) sample_fresh)).1 = .ok result
      ∧ (add_embedded_module "example" "pybind11_init_impl_example" sample_fresh).2.calls =
          sample_fresh.calls ++ [.Py_IsInitialized false,
            .PyImport_AppendInittab "example" "pybind11_init_impl_example" result]
      ∧ ((add_embedded_module "example" "pybind11_init_impl_example" sample_fresh).1 = .ok ()
          ↔ result ≠ -1)
      ∧ (result = -1 →
          (add_embedded_module "example" "pybind11_init_impl_example" sample_fresh).1 =
            .error (.runtime_error "Insufficient memory to add a new module")) :=
  ⟨rfl, add_embedded_module_before_initialize "example" "pybind11_init_impl_example"
    sample_fresh rfl⟩

/-! ## The heap at start-up -/

theorem loaded_objects_length (base : Nat) (names : List String) :
    (loaded_objects base names).length = 3 * names.length := by
  induction names generalizing base with
  | nil => rfl
  | cons x xs ih =>
    simp only [loaded_objects, List.length_append, List.length_cons, List.length_nil, ih]
    omega

theorem startup_heap_length (P L : List String) :
    (startup_heap P L).length = P.length + 7 + 3 * (L.length + 1) := by
  simp only [startup_heap, List.length_append, List.length_map, List.length_cons,
    List.length_nil, loaded_objects_length]
  omega

theorem startup_heap_entry (P L : List String) (i : Nat) (h : i < P.length) :
    (startup_heap P L)[i]? = (P[i]?).map PyObj.str := by
  unfold startup_heap
  rw [List.getElem?_append_left (by simpa using h)]
  simp

theorem startup_heap_object (P L : List String) (k : Nat) :
    (startup_heap P L)[P.length + k]? =
      ([ PyObj.list (List.range P.length), .str "sys",
        .dict [("__name__", P.length + 1), ("path", P.length)], .module (P.length + 2),
        .str "__main__", .dict [("__name__", P.length + 4)], .module (P.length + 5) ] ++
        loaded_objects (P.length + 7) ("builtins" :: L))[k]? := by
  unfold startup_heap
  rw [List.getElem?_append_right (by simp)]
  simp

theorem load_strs_append (heap : List PyObj) (ps qs : List PyPtr) (vs ws : List String)
    (hp : load_strs heap ps = some vs) (hq : load_strs heap qs = some ws) :
    load_strs heap (ps ++ qs) = some (vs ++ ws) := by
  induction ps generalizing vs with
  | nil =>
    simp only [load_strs, Option.some.injEq] at hp
    subst hp
    simpa using hq
  | cons p ps ih =>
    simp only [load_strs] at hp
    simp only [List.cons_append, load_strs]
    split at hp
    · rename_i v us hv hus
      simp only [Option.some.injEq] at hp
      subst hp
      have hi : load_strs heap (ps.append qs) = some (us ++ ws) := ih us hus
      rw [hv, hi]
      rfl
    · exact absurd hp (by simp)

theorem load_strs_range (P : List String) (heap : List PyObj)
    (h : ∀ i, i < P.length → heap[i]? = (P[i]?).map PyObj.str) :
    load_strs heap (List.range P.length) = some P := by
  induction P using List.reverseRecOn with
  | nil => rfl
  | append_singleton P x ih =>
    have hlen : (P ++ [x]).length = P.length + 1 := by simp
    rw [hlen, List.range_succ]
    apply load_strs_append
    · apply ih
      intro i hi
      rw [h i (by omega), List.getElem?_append_left hi]
    · have := h P.length (by omega)
      simp only [load_strs, this]
      simp

/-! ## `initialize_interpreter` -/

theorem py_deref_run (p : PyPtr) (o : PyObj) (s : Interp) (hi : s.initialized = true)
    (h : s.heap[p]? = some o) : py_deref p s = (.ok o, s) := by
  simp [py_deref, py_api, hi, h]

theorem py_new_run (o : PyObj) (s : Interp) (hi : s.initialized = true) :
    py_new o s = (.ok s.heap.length, { s with heap := s.heap ++ [o] }) := by
  simp [py_new, py_api, hi]

/-- The state `Py_InitializeEx` leaves when the interpreter was not
initialised. -/
theorem Py_InitializeEx_run (initsigs : Int) (s : Interp) (h : s.initialized = false) :
    Py_InitializeEx initsigs s = (.ok (), { s with
      initialized := true,
      signal_handlers := initsigs != 0,
      heap := startup_heap s.startup_path s.startup_loaded,
      sys_modules := startup_modules s.startup_path s.startup_loaded,
      calls := s.calls ++ [ApiCall.Py_InitializeEx initsigs] }) := by
  simp [Py_InitializeEx, logCall, h]

theorem module_import_cached (env : Env) (name : String) (m : PyPtr) (s : Interp)
    (hi : s.initialized = true) (h : s.sys_modules.lookup name = some m) :
    module_import env name s = (.ok m, s) := by
  simp [module_import, py_api, hi, h]

theorem getattr_module_dict (obj d : PyPtr) (s : Interp) (hi : s.initialized = true)
    (ho : s.heap[obj]? = some (.module d)) : getattr obj "__dict__" s = (.ok d, s) := by
  simp [getattr, Cpp.bind_run, py_deref_run obj _ s hi ho]

theorem getattr_module_entry (obj d v : PyPtr) (name : String)
    (entries : List (String × PyPtr)) (s : Interp) (hi : s.initialized = true)
    (ho : s.heap[obj]? = some (.module d)) (hn : (name == "__dict__") = false)
    (hd : s.heap[d]? = some (.dict entries)) (hv : entries.lookup name = some v) :
    getattr obj name s = (.ok v, s) := by
  simp [getattr, Cpp.bind_run, py_deref_run obj _ s hi ho, py_deref_run d _ s hi hd, hn, hv]

theorem getElem?_append_of_eq_some {α : Type} (l r : List α) (i : Nat) (a : α)
    (h : l[i]? = some a) : (l ++ r)[i]? = some a := by
  have hlt : i < l.length := by
    by_contra hc
    rw [List.getElem?_eq_none (by omega)] at h
    exact absurd h (by simp)
  rw [List.getElem?_append_left hlt, h]

theorem list_append_run (self : PyPtr) (val : String) (items : List PyPtr) (s : Interp)
    (hi : s.initialized = true) (h : s.heap[self]? = some (.list items)) :
    list_append self val s = (.ok (), { s with
      heap := (s.heap ++ [PyObj.str val]).set self (PyObj.list (items ++ [s.heap.length])) }) := by
  have h' : (s.heap ++ [PyObj.str val])[self]? = some (.list items) :=
    getElem?_append_of_eq_some _ _ _ _ h
  simp [list_append, Cpp.bind_run, py_str, py_new_run _ s hi, PyList_Append,
    py_deref_run self _ { s with heap := s.heap ++ [PyObj.str val] } hi h']

/-- The state `initialize_interpreter` leaves when the interpreter was not
initialised. -/
theorem initialize_interpreter_run (env : Env) (b : Bool) (s : Interp)
    (h : s.initialized = false) :
    initialize_interpreter env b s = (.ok (), { s with
      initialized := true,
      signal_handlers := b,
      heap := (startup_heap s.startup_path s.startup_loaded ++ [PyObj.str "."]).set
        s.startup_path.length
        (PyObj.list (List.range s.startup_path.length ++
          [(startup_heap s.startup_path s.startup_loaded).length])),
      sys_modules := startup_modules s.startup_path s.startup_loaded,
      calls := s.calls ++
        [ApiCall.Py_IsInitialized false, ApiCall.Py_InitializeEx (if b then 1 else 0)] }) := by
  have hsig : ((if b = true then (1 : Int) else 0) != 0) = b := by cases b <;> rfl
  have h2 := Py_InitializeEx_run (if b then 1 else 0) (logCall (.Py_IsInitialized false) s) h
  rw [hsig] at h2
  generalize hs2 : ({ logCall (.Py_IsInitialized false) s with
      initialized := true,
      signal_handlers := b,
      heap := startup_heap (logCall (.Py_IsInitialized false) s).startup_path
        (logCall (.Py_IsInitialized false) s).startup_loaded,
      sys_modules := startup_modules (logCall (.Py_IsInitialized false) s).startup_path
        (logCall (.Py_IsInitialized false) s).startup_loaded,
      calls := (logCall (.Py_IsInitialized false) s).calls ++
        [ApiCall.Py_InitializeEx (if b then 1 else 0)] } : Interp) = s2 at h2
  have hi2 : s2.initialized = true := by rw [← hs2]
  have hheap : s2.heap = startup_heap s.startup_path s.startup_loaded := by rw [← hs2]; rfl
  have h3 : module_import env "sys" s2 = (.ok (s.startup_path.length + 3), s2) :=
    module_import_cached env "sys" _ s2 hi2 (by rw [← hs2]; rfl)
  have h4 : getattr (s.startup_path.length + 3) "path" s2 = (.ok s.startup_path.length, s2) :=
    getattr_module_entry _ (s.startup_path.length + 2) _ "path" _ s2 hi2
      (by rw [hheap, startup_heap_object]; rfl) (by decide)
      (by rw [hheap, startup_heap_object]; rfl) (by rfl)
  have h5 := list_append_run s.startup_path.length "." (List.range s.startup_path.length) s2 hi2
    (by rw [hheap]; exact startup_heap_object s.startup_path s.startup_loaded 0)
  simp only [initialize_interpreter, Cpp.bind_run, Py_IsInitialized_run, h, h2, h3, h4, h5,
    Bool.false_eq_true, if_false]
  rw [hheap, ← hs2]
  simp [logCall]

theorem sys_path_eq (s : Interp) (m d l : PyPtr) (entries : List (String × PyPtr))
    (items : List PyPtr) (hm : s.sys_modules.lookup "sys" = some m)
    (h₁ : s.heap[m]? = some (.module d)) (h₂ : s.heap[d]? = some (.dict entries))
    (h₃ : entries.lookup "path" = some l) (h₄ : s.heap[l]? = some (.list items)) :
    sys_path s = load_strs s.heap items := by
  simp [sys_path, hm, h₁, h₂, h₃, h₄]

/-- The value of `sys.path` right after the runtime's start-up. -/
theorem sys_path_startup (s : Interp)
    (h : s.sys_modules = startup_modules s.startup_path s.startup_loaded)
    (hh : s.heap = startup_heap s.startup_path s.startup_loaded) :
    sys_path s = some s.startup_path := by
  rw [sys_path_eq s (s.startup_path.length + 3) (s.startup_path.length + 2) s.startup_path.length
    _ (List.range s.startup_path.length) (by rw [h]; rfl)
    (by rw [hh, startup_heap_object]; rfl) (by rw [hh, startup_heap_object]; rfl) (by rfl)
    (by rw [hh]; exact startup_heap_object s.startup_path s.startup_loaded 0)]
  apply load_strs_range
  intro i hi
  rw [hh, startup_heap_entry _ _ i hi]

/-- The heap after `initialize_interpreter`: the start-up objects other than
the list `sys.path` are where the start-up put them. -/
theorem appended_heap_other (P L : List String) (x : PyObj) (i : Nat) (hne : i ≠ P.length)
    (hlt : i < P.length + 7) :
    ((startup_heap P L ++ [PyObj.str "."]).set P.length x)[i]? = (startup_heap P L)[i]? := by
  rw [List.getElem?_set_ne (by omega),
    List.getElem?_append_left (by rw [startup_heap_length]; omega)]

/-- The value of `sys.path` in the state `initialize_interpreter` leaves. -/
theorem sys_path_appended (s : Interp)
    (h : s.sys_modules = startup_modules s.startup_path s.startup_loaded)
    (hh : s.heap = (startup_heap s.startup_path s.startup_loaded ++ [PyObj.str "."]).set
      s.startup_path.length
      (PyObj.list (List.range s.startup_path.length ++
        [(startup_heap s.startup_path s.startup_loaded).length]))) :
    sys_path s = some (s.startup_path ++ ["."]) := by
  rw [sys_path_eq s (s.startup_path.length + 3) (s.startup_path.length + 2) s.startup_path.length
    _ (List.range s.startup_path.length ++
      [(startup_heap s.startup_path s.startup_loaded).length]) (by rw [h]; rfl)
    (by rw [hh, appended_heap_other _ _ _ _ (by omega) (by omega), startup_heap_object]; rfl)
    (by rw [hh, appended_heap_other _ _ _ _ (by omega) (by omega), startup_heap_object]; rfl)
    (by rfl)
    (by rw [hh, List.getElem?_set_eq_of_lt]
        simp only [List.length_append, startup_heap_length, List.length_singleton]
        omega)]
  apply load_strs_append
  · apply load_strs_range
    intro i hi
    rw [hh, appended_heap_other _ _ _ _ (by omega) (by omega), startup_heap_entry _ _ i hi]
  · have hlen := startup_heap_length s.startup_path s.startup_loaded
    have hdot : s.heap[(startup_heap s.startup_path s.startup_loaded).length]? =
        some (PyObj.str ".") := by
      rw [hh, List.getElem?_set_ne (by omega), List.getElem?_append_right (le_refl _)]
      simp
    simp only [load_strs, hdot]

/-- Claim C3: from any state in which the interpreter is not initialised,
`initialize_interpreter` (with either value of its parameter) returns
normally and leaves the interpreter initialised, with `sys.path` equal to the
path the runtime's start-up produced followed by the one entry ".". -/
theorem initialize_interpreter_appends_cwd (env : Env) (b : Bool) (s : Interp)
    (h : s.initialized = false) :
    (initialize_interpreter env b s).1 = .ok ()
      ∧ (initialize_interpreter env b s).2.initialized = true
      ∧ ∃ startup : List String,
          sys_path (Py_InitializeEx (if b then 1 else 0) s).2 = some startup
          ∧ sys_path (initialize_interpreter env b s).2 = some (startup ++ ["."]) := by
  rw [initialize_interpreter_run env b s h, Py_InitializeEx_run _ s h]
  exact ⟨rfl, rfl, s.startup_path, sys_path_startup _ rfl rfl, sys_path_appended _ rfl rfl⟩

/-- Instance of claim C3 on a process that has just started. -/
theorem initialize_interpreter_appends_cwd_witness :
    sample_fresh.initialized = false ∧
    (initialize_interpreter sample_env true sample_fresh).1 = .ok ()
      ∧ (initialize_interpreter sample_env true sample_fresh).2.initialized = true
      ∧ ∃ startup : List String,
          sys_path (Py_InitializeEx (if true then 1 else 0) sample_fresh).2 = some startup
          ∧ sys_path (initialize_interpreter sample_env true sample_fresh).2 =
              some (startup ++ ["."]) :=
  ⟨rfl, initialize_interpreter_appends_cwd sample_env true sample_fresh rfl⟩

/-- Claim C5: on an interpreter that is not initialised, `initialize_interpreter`
calls `Py_InitializeEx` with 1 when `init_signal_handlers` is true and with 0
when it is false, and the signal handlers end up registered exactly when it
is true; the parameter defaults to true; the states the two values lead to
agree on everything but the registration of the handlers and the recorded
argument of the call. -/
theorem initialize_interpreter_signal_handlers (env : Env) (s : Interp)
    (h : s.initialized = false) :
    (initialize_interpreter env true s).2.calls =
        s.calls ++ [.Py_IsInitialized false, .Py_InitializeEx 1]
      ∧ (initialize_interpreter env false s).2.calls =
        s.calls ++ [.Py_IsInitialized false, .Py_InitializeEx 0]
      ∧ (initialize_interpreter env true s).2.signal_handlers = true
      ∧ (initialize_interpreter env false s).2.signal_handlers = false
      ∧ (initialize_interpreter env : Cpp Unit) = initialize_interpreter env true
      ∧ (initialize_interpreter env true s).1 = (initialize_interpreter env false s).1
      ∧ { (initialize_interpreter env true s).2 with signal_handlers := false, calls := [] } =
        { (initialize_interpreter env false s).2 with signal_handlers := false, calls := [] } := by
  rw [initialize_interpreter_run env true s h, initialize_interpreter_run env false s h]
  exact ⟨rfl, rfl, rfl, rfl, rfl, rfl, rfl⟩

/-- Instance of claim C5 on a process that has just started. -/
theorem initialize_interpreter_signal_handlers_witness :
    sample_fresh.initialized = false ∧
    (initialize_interpreter sample_env true sample_fresh).2.calls =
        sample_fresh.calls ++ [.Py_IsInitialized false, .Py_InitializeEx 1]
      ∧ (initialize_interpreter sample_env false sample_fresh).2.calls =
        sample_fresh.calls ++ [.Py_IsInitialized false, .Py_InitializeEx 0]
      ∧ (initialize_interpreter sample_env true sample_fresh).2.signal_handlers = true
      ∧ (initialize_interpreter sample_env false sample_fresh).2.signal_handlers = false
      ∧ (initialize_interpreter sample_env : Cpp Unit) =
        initialize_interpreter sample_env true
      ∧ (initialize_interpreter sample_env true sample_fresh).1 =
        (initialize_interpreter sample_env false sample_fresh).1
      ∧ { (initialize_interpreter sample_env true sample_fresh).2 with
            signal_handlers := false, calls := [] } =
        { (initialize_interpreter sample_env false sample_fresh).2 with
            signal_handlers := false, calls := [] } :=
  ⟨rfl, initialize_interpreter_signal_handlers sample_env sample_fresh rfl⟩

/-! ## `scoped_interpreter` -/

theorem Py_Finalize_initialized (s : Interp) : (Py_Finalize s).2.initialized = false := by
  unfold Py_Finalize
  by_cases h : s.initialized = true
  · simp [h]
  · simp [h]

theorem scanl_all_initialized (steps : List (Interp → Interp)) (s : Interp)
    (hs : s.initialized = true)
    (hsteps : ∀ f ∈ steps, ∀ t : Interp, t.initialized = true → (f t).initialized = true) :
    (∀ t ∈ List.scanl (fun t f => f t) s steps, t.initialized = true)
      ∧ (List.foldl (fun t f => f t) s steps).initialized = true := by
  induction steps generalizing s with
  | nil =>
    constructor
    · intro t ht
      simp only [List.scanl, List.mem_singleton] at ht
      rw [ht]; exact hs
    · exact hs
  | cons f steps ih =>
    have hf : (f s).initialized = true := hsteps f (by simp) s hs
    have ih' := ih (f s) hf fun g hg => hsteps g (by simp [hg])
    constructor
    · intro t ht
      simp only [List.scanl, List.mem_cons] at ht
      rcases ht with ht | ht
      · rw [ht]; exact hs
      · exact ih'.1 t ht
    · exact ih'.2

theorem cast_dict_run (obj : PyPtr) (entries : List (String × PyPtr)) (s : Interp)
    (hi : s.initialized = true) (h : s.heap[obj]? = some (.dict entries)) :
    cast_dict obj s = (.ok obj, s) := by
  simp [cast_dict, Cpp.bind_run, py_deref_run obj _ s hi h]

/-- Claim C7: `main()` is the import of "__main__", and in every state
`globals()` is the attribute `__dict__` of that import cast to a `dict`; when
`sys.modules` has a module object under "__main__", `globals()` returns that
module's dictionary and leaves the state as it is. -/
theorem globals_is_main_dict (env : Env) (s : Interp) :
    main env s = module_import env "__main__" s
      ∧ globals env s = globals_spec env s
      ∧ ∀ (m d : PyPtr) (entries : List (String × PyPtr)),
          s.initialized = true → s.sys_modules.lookup "__main__" = some m →
          s.heap[m]? = some (.module d) → s.heap[d]? = some (.dict entries) →
          globals env s = (.ok d, s) := by
  refine ⟨rfl, rfl, ?_⟩
  intro m d entries hi hm hmod hd
  simp [globals, main, Cpp.bind_run, module_import_cached env "__main__" m s hi hm,
    getattr_module_dict m d s hi hmod, cast_dict_run d entries s hi hd]

/-- Instance of claim C7 on a running interpreter: `globals()` is the
dictionary of the `__main__` module the start-up created. -/
theorem globals_is_main_dict_witness :
    main sample_env sample_running = module_import sample_env "__main__" sample_running
      ∧ globals sample_env sample_running = globals_spec sample_env sample_running
      ∧ globals sample_env sample_running = (.ok 6, sample_running) :=
  ⟨(globals_is_main_dict sample_env sample_running).1,
    (globals_is_main_dict sample_env sample_running).2.1,
    (globals_is_main_dict sample_env sample_running).2.2 7 6 [("__name__", 5)] rfl rfl rfl rfl⟩

/-! ## `PYBIND11_ADD_EMBEDDED_MODULE` -/

/-- The module object `module::module(name)` makes and the state it leaves. -/
theorem module_new_run (name : String) (s : Interp) (hi : s.initialized = true) :
    module_new name s = (.ok (s.heap.length + 2), { s with
      heap := s.heap ++ [PyObj.str name, PyObj.dict [("__name__", s.heap.length)],
        PyObj.module (s.heap.length + 1)] }) := by
  simp [module_new, Cpp.bind_run, py_str, py_new, py_api, hi]

theorem module_new_name (name : String) (s : Interp) (hi : s.initialized = true) :
    module_name (module_new name s).2 (s.heap.length + 2) = some name := by
  rw [module_new_run name s hi]
  have h₀ : (s.heap ++ [PyObj.str name, PyObj.dict [("__name__", s.heap.length)],
      PyObj.module (s.heap.length + 1)])[s.heap.length]? = some (PyObj.str name) := by
    rw [List.getElem?_append_right (by omega)]; simp
  have h₁ : (s.heap ++ [PyObj.str name, PyObj.dict [("__name__", s.heap.length)],
      PyObj.module (s.heap.length + 1)])[s.heap.length + 1]? =
        some (PyObj.dict [("__name__", s.heap.length)]) := by
    rw [List.getElem?_append_right (by omega)]; simp
  have h₂ : (s.heap ++ [PyObj.str name, PyObj.dict [("__name__", s.heap.length)],
      PyObj.module (s.heap.length + 1)])[s.heap.length + 2]? =
        some (PyObj.module (s.heap.length + 1)) := by
    rw [List.getElem?_append_right (by omega)]; simp
  simp [module_name, h₀, h₁, h₂, List.lookup]

/-- The generated init function: the new module is handed to the body, and
the object the body's reference then holds is returned. -/
theorem pybind11_init_impl_run (name : String) (body : PyPtr → Cpp PyPtr) (s : Interp)
    (hi : s.initialized = true) :
    pybind11_init_impl name body s = body (s.heap.length + 2) (module_new name s).2 := by
  rw [module_new_run name s hi]
  simp only [pybind11_init_impl, Cpp.bind_run, module_new_run name s hi]
  rcases body (s.heap.length + 2) _ with ⟨r, s'⟩
  cases r <;> rfl

/-- A body that does not assign to its module reference returns the module it
was given. -/
theorem result_of_keeping_body (body : PyPtr → Cpp PyPtr)
    (hbody : ∀ m t m' t', body m t = (.ok m', t') → m' = m) (m : PyPtr) (t : Interp) :
    body m t = match body m t with
      | (.ok _, t') => (.ok m, t')
      | (.error e, t') => (.error e, t') := by
  rcases hr : body m t with ⟨r, t'⟩
  cases r with
  | error e => rfl
  | ok m' => rw [hbody m t m' t' hr]

/-- The body of the test driver's module does not assign to `m`. -/
theorem embedded_cpp.body_keeps_module (m : PyPtr) (t : Interp) (m' : PyPtr) (t' : Interp)
    (h : embedded_cpp.pybind11_init_test_cmake_build m t = (.ok m', t')) : m' = m := by
  simp only [embedded_cpp.pybind11_init_test_cmake_build, Cpp.bind_run] at h
  rcases hr : module_def m "add" embedded_cpp.add t with ⟨r, t₁⟩
  rw [hr] at h
  cases r with
  | error e => simp at h
  | ok u =>
    simp only [Cpp.pure_run, Prod.mk.injEq, Except.ok.injEq] at h
    exact h.1.symm

theorem lookup_append_of_none {β : Type} (l : List (String × β)) (k : String) (v : β)
    (h : l.lookup k = none) : (l ++ [(k, v)]).lookup k = some v := by
  induction l with
  | nil => simp [List.lookup]
  | cons e l ih =>
    rcases e with ⟨k', v'⟩
    simp only [List.lookup] at h
    simp only [List.cons_append, List.lookup]
    split at h
    · exact absurd h (by simp)
    · exact ih h

/-- What a registration that returned normally did. -/
theorem add_embedded_module_ok (name : String) (init : init_t) (s : Interp)
    (h : (add_embedded_module name init s).1 = .ok ()) :
    s.initialized = false
      ∧ (add_embedded_module name init s).2.initialized = false
      ∧ (add_embedded_module name init s).2.inittab = s.inittab ++ [(name, init)] := by
  have hi : s.initialized = false := by
    cases hs : s.initialized
    · rfl
    · rw [add_embedded_module_run_initialized name init s hs] at h
      exact absurd h (by simp)
  refine ⟨hi, ?_⟩
  rw [add_embedded_module_run_uninitialized name init s hi] at h ⊢
  rcases hs : s.table_alloc with _ | ⟨b, rest⟩
  · simp [PyImport_AppendInittab, hs, hi]
  · cases b
    · simp [PyImport_AppendInittab, hs] at h
    · simp [PyImport_AppendInittab, hs, hi]

theorem avoids_pure {α : Type} (e : CppException) (a : α) : avoids e (pure a : Cpp α) := by
  intro s h
  simp at h

theorem avoids_raise {α : Type} (e e' : CppException) (h : e' ≠ e) :
    avoids e (Cpp.raise e' : Cpp α) := by
  intro s hs
  simp at hs
  exact h hs

theorem avoids_bind {α β : Type} (e : CppException) (m : Cpp α) (f : α → Cpp β)
    (hm : avoids e m) (hf : ∀ a, avoids e (f a)) : avoids e (m >>= f) := by
  intro s
  rw [Cpp.bind_run]
  rcases hr : m s with ⟨r, s'⟩
  cases r with
  | ok a => exact hf a s'
  | error e' =>
    have := hm s
    rw [hr] at this
    simpa using this

theorem avoids_py_api {α : Type} (e : CppException) (m : Cpp α) (hm : avoids e m)
    (he : e ≠ .abort) : avoids e (py_api m) := by
  intro s
  unfold py_api
  split
  · exact hm s
  · intro h
    simp at h
    exact he h.symm

theorem avoids_py_new (w : String) (o : PyObj) : avoids (.runtime_error w) (py_new o) := by
  apply avoids_py_api _ _ _ (by simp)
  intro s h
  simp at h

theorem avoids_py_deref (w : String) (p : PyPtr) : avoids (.runtime_error w) (py_deref p) := by
  apply avoids_py_api _ _ _ (by simp)
  intro s h
  simp only [] at h
  split at h <;> simp at h

theorem avoids_getattr (w : String) (obj : PyPtr) (name : String) :
    avoids (.runtime_error w) (getattr obj name) := by
  unfold getattr
  refine avoids_bind _ _ _ (avoids_py_deref w obj) fun o => ?_
  split
  · split
    · exact avoids_pure _ _
    · refine avoids_bind _ _ _ (avoids_pure _ _) fun _ => ?_
      refine avoids_bind _ _ _ (avoids_py_deref w _) fun o' => ?_
      split
      · split
        · exact avoids_pure _ _
        · exact avoids_raise _ _ (by simp)
      · exact avoids_raise _ _ (by simp)
  · exact avoids_raise _ _ (by simp)

theorem avoids_setattr (w : String) (obj : PyPtr) (name : String) (value : PyPtr) :
    avoids (.runtime_error w) (setattr obj name value) := by
  unfold setattr
  repeat first
    | exact avoids_pure _ _
    | exact avoids_raise _ _ (by simp)
    | exact avoids_py_deref _ _
    | refine avoids_bind _ _ _ ?_ fun _ => ?_
    | split

theorem avoids_PyList_Append (w : String) (l item : PyPtr) :
    avoids (.runtime_error w) (PyList_Append l item) := by
  unfold PyList_Append
  repeat first
    | exact avoids_pure _ _
    | exact avoids_raise _ _ (by simp)
    | exact avoids_py_deref _ _
    | refine avoids_bind _ _ _ ?_ fun _ => ?_
    | split

theorem avoids_list_append (w : String) (self : PyPtr) (val : String) :
    avoids (.runtime_error w) (list_append self val) := by
  unfold list_append py_str
  repeat first
    | exact avoids_pure _ _
    | exact avoids_py_new _ _
    | exact avoids_PyList_Append _ _ _
    | refine avoids_bind _ _ _ ?_ fun _ => ?_

theorem avoids_module_new (w : String) (name : String) :
    avoids (.runtime_error w) (module_new name) := by
  unfold module_new py_str
  repeat first
    | exact avoids_pure _ _
    | exact avoids_py_new _ _
    | refine avoids_bind _ _ _ ?_ fun _ => ?_

theorem avoids_module_def (w : String) (m : PyPtr) (name : String) (f : List Int → Option Int) :
    avoids (.runtime_error w) (module_def m name f) := by
  unfold module_def
  repeat first
    | exact avoids_py_new _ _
    | exact avoids_setattr _ _ _ _
    | refine avoids_bind _ _ _ ?_ fun _ => ?_

theorem avoids_PyObject_CallObject (w : String) (callable args : PyPtr) :
    avoids (.runtime_error w) (PyObject_CallObject callable args) := by
  unfold PyObject_CallObject py_int
  repeat first
    | exact avoids_pure _ _
    | exact avoids_raise _ _ (by simp)
    | exact avoids_py_deref _ _
    | exact avoids_py_new _ _
    | refine avoids_bind _ _ _ ?_ fun _ => ?_
    | split
    | (intro s h; simp at h)

theorem avoids_cast_int (w : String) (obj : PyPtr) :
    avoids (.runtime_error w) (cast_int obj) := by
  unfold cast_int
  repeat first
    | exact avoids_pure _ _
    | exact avoids_raise _ _ (by simp)
    | exact avoids_py_deref _ _
    | refine avoids_bind _ _ _ ?_ fun _ => ?_
    | split

theorem avoids_cast_dict (w : String) (obj : PyPtr) :
    avoids (.runtime_error w) (cast_dict obj) := by
  unfold cast_dict
  repeat first
    | exact avoids_pure _ _
    | exact avoids_raise _ _ (by simp)
    | exact avoids_py_deref _ _
    | refine avoids_bind _ _ _ ?_ fun _ => ?_
    | split

theorem avoids_pybind11_init_impl (e : CppException) (name : String) (body : PyPtr → Cpp PyPtr)
    (hn : avoids e (module_new name)) (hb : ∀ m, avoids e (body m)) :
    avoids e (pybind11_init_impl name body) := by
  unfold pybind11_init_impl
  refine avoids_bind _ _ _ hn fun m => ?_
  refine avoids_bind _ _ _ (hb m) fun _ => ?_
  exact avoids_pure _ _

/-- An import throws only what the init functions of the program throw,
a Python error, or ends the process. -/
theorem avoids_module_import (w : String) (env : Env) (name : String)
    (henv : ∀ sym f, env.initfunc sym = some f → avoids (.runtime_error w) f) :
    avoids (.runtime_error w) (module_import env name) := by
  apply avoids_py_api _ _ _ (by simp)
  intro s
  simp only []
  split
  · simp
  · split
    · simp
    · split
      · simp
      · rename_i f hf
        have := henv _ f hf s
        split
        · simp
        · rename_i e s' hr
          rw [hr] at this
          simpa using this

theorem avoids_Py_IsInitialized (e : CppException) : avoids e Py_IsInitialized := by
  intro s h
  simp at h

theorem avoids_Py_InitializeEx (e : CppException) (initsigs : Int) :
    avoids e (Py_InitializeEx initsigs) := by
  intro s h
  unfold Py_InitializeEx at h
  simp only [] at h
  split at h <;> simp at h

theorem avoids_Py_Finalize (e : CppException) : avoids e Py_Finalize := by
  intro s h
  unfold Py_Finalize at h
  simp only [] at h
  split at h <;> simp at h

theorem avoids_initialize_interpreter (w : String) (env : Env) (b : Bool)
    (henv : ∀ sym f, env.initfunc sym = some f → avoids (.runtime_error w) f) :
    avoids (.runtime_error w) (initialize_interpreter env b) := by
  unfold initialize_interpreter
  refine avoids_bind _ _ _ (avoids_Py_IsInitialized _) fun c => ?_
  split
  · exact avoids_pure _ _
  · refine avoids_bind _ _ _ (avoids_Py_InitializeEx _ _) fun _ => ?_
    refine avoids_bind _ _ _ (avoids_module_import _ _ _ henv) fun _ => ?_
    refine avoids_bind _ _ _ (avoids_getattr _ _ _) fun _ => ?_
    exact avoids_list_append _ _ _

theorem avoids_globals (w : String) (env : Env)
    (henv : ∀ sym f, env.initfunc sym = some f → avoids (.runtime_error w) f) :
    avoids (.runtime_error w) (globals env) := by
  unfold globals main
  repeat first
    | exact avoids_module_import _ _ _ henv
    | exact avoids_getattr _ _ _
    | exact avoids_cast_dict _ _
    | refine avoids_bind _ _ _ ?_ fun _ => ?_

theorem could_not_be_opened_ne (fname : String) :
    "File \"" ++ fname ++ "\" could not be opened!" ≠
      "Expected test.py file as the first argument" := by
  intro h
  have hd := congrArg String.data h
  simp only [String.data_append] at hd
  have hh := congrArg List.head? hd
  simp at hh

theorem avoids_eval_file (env : Env) (fname : String) (global : PyPtr) :
    avoids (.runtime_error "Expected test.py file as the first argument")
      (eval_file env fname global) := by
  apply avoids_py_api _ _ _ (by simp)
  intro s
  simp only []
  split
  · intro h
    simp only [pybind11_fail_run, Except.error.injEq, CppException.runtime_error.injEq] at h
    exact could_not_be_opened_ne fname h
  · split <;> simp

/-! ## The test driver -/

theorem embedded_cpp.avoids_initfunc (w : String)
    (run_file : String → Option (PyPtr → PyPtr → Interp → Except String PyPtr × Interp))
    (sym : init_t) (f : Cpp PyPtr) (h : (embedded_cpp.env run_file).initfunc sym = some f) :
    avoids (.runtime_error w) f := by
  simp only [embedded_cpp.env, link, List.find?] at h
  split at h
  · simp only [Option.map_some', Option.some.injEq] at h
    rw [← h]
    exact avoids_pybind11_init_impl _ _ _ (avoids_module_new w _)
      fun m => avoids_bind _ _ _ (avoids_module_def w m "add" embedded_cpp.add)
        fun _ => avoids_pure _ _
  · simp at h

/-- With two arguments, `main` does not throw the error of the argument
check. -/
theorem embedded_cpp.main_two_args
    (run_file : String → Option (PyPtr → PyPtr → Interp → Except String PyPtr × Interp))
    (argv : List String) :
    avoids (.runtime_error "Expected test.py file as the first argument")
      (embedded_cpp.main run_file 2 argv) := by
  have henv := embedded_cpp.avoids_initfunc "Expected test.py file as the first argument" run_file
  unfold embedded_cpp.main
  simp only [bne_self_eq_false, Bool.false_eq_true, if_false]
  split
  · exact avoids_raise _ _ (by simp)
  · unfold scoped_interpreter.ctor scoped_interpreter.dtor finalize_interpreter py_int py_str
      make_tuple
    repeat first
      | exact avoids_pure _ _
      | exact avoids_raise _ _ (by decide)
      | exact avoids_initialize_interpreter _ _ _ henv
      | exact avoids_module_import _ _ _ henv
      | exact avoids_globals _ _ henv
      | exact avoids_py_new _ _
      | exact avoids_getattr _ _ _
      | exact avoids_setattr _ _ _ _
      | exact avoids_PyObject_CallObject _ _ _
      | exact avoids_cast_int _ _
      | exact avoids_eval_file _ _ _
      | exact avoids_Py_Finalize _
      | refine avoids_bind _ _ _ ?_ fun _ => ?_
      | split

/-- Claim C8: the main function of the embedded test driver throws the runtime error
"Expected test.py file as the first argument" if and only if `argc` is not 2,
and then it leaves the interpreter state, the record of lifecycle calls
included, exactly as it found it: no `scoped_interpreter` was constructed. -/
theorem embedded_cpp.main_argc_check
    (run_file : String → Option (PyPtr → PyPtr → Interp → Except String PyPtr × Interp))
    (argc : Int) (argv : List String) (s : Interp) :
    ((embedded_cpp.main run_file argc argv s).1 =
        .error (.runtime_error "Expected test.py file as the first argument") ↔ argc ≠ 2)
      ∧ (argc ≠ 2 → (embedded_cpp.main run_file argc argv s).2 = s) := by
  by_cases h : argc = 2
  · subst h
    refine ⟨⟨fun hm => absurd hm (embedded_cpp.main_two_args run_file argv s), fun hn => absurd rfl hn⟩,
      fun hn => absurd rfl hn⟩
  · have hb : (argc != 2) = true := by simpa using h
    have hrun : embedded_cpp.main run_file argc argv s =
        (.error (.runtime_error "Expected test.py file as the first argument"), s) := by
      simp [embedded_cpp.main, hb]
    rw [hrun]
    exact ⟨⟨fun _ => h, fun _ => rfl⟩, fun _ => rfl⟩

/-- Instance of claim C8: the driver started without the file argument. -/
theorem embedded_cpp.main_argc_check_witness :
    (1 : Int) ≠ 2
      ∧ (embedded_cpp.main (fun _ => none) 1 ["embedded"] sample_fresh).1 =
          .error (.runtime_error "Expected test.py file as the first argument")
      ∧ (embedded_cpp.main (fun _ => none) 1 ["embedded"] sample_fresh).2 = sample_fresh :=
  ⟨by decide,
    (embedded_cpp.main_argc_check (fun _ => none) 1 ["embedded"] sample_fresh).1.mpr (by decide),
    (embedded_cpp.main_argc_check (fun _ => none) 1 ["embedded"] sample_fresh).2 (by decide)⟩

end pybind11
